import Mathlib

/-!
Verification of the errkind package: an error-classification layer where
error values optionally implement single-method capability interfaces
(temporaryer, coder, statusCoder, statuser, publicer), queried after
resolving the cause chain (except IsPublic, which tests the error as given).

Go error values are embedded as the inductive type `Errkind.GoError`.
A Go interface type assertion `err.(iface)` is embedded as an accessor
returning `Option`: `none` means the dynamic type does not implement the
interface, `some v` means it does and the method returns `v`.  The Go
`error` type itself (which may be nil) is embedded as `Option GoError`.
-/

namespace Errkind

/-- Go unicode.IsSpace, as used by strings.TrimSpace: the Unicode
White_Space property characters. -/
def isGoSpace (c : Char) : Bool :=
  c = ' ' || c = '\t' || c = '\n' || c = '\x0b' || c = '\x0c' || c = '\r' ||
  c = '\u0085' || c = '\u00a0' || c = '\u1680' ||
  ('\u2000' ≤ c && c ≤ '\u200a') || c = '\u2028' || c = '\u2029' ||
  c = '\u202f' || c = '\u205f' || c = '\u3000'

/-- Trimming of leading and trailing Go whitespace from a character list. -/
def listTrim (l : List Char) : List Char :=
  ((l.dropWhile isGoSpace).reverse.dropWhile isGoSpace).reverse

/-- Go strings.TrimSpace. -/
def trimSpace (s : String) : String :=
  String.mk (listTrim s.data)

/-- Embedding of Go error values relevant to errkind:
the package's own variants `publicStatusError`, `publicStatusCodeError`
and `temporaryError`; `wrapped` for errors produced by the external
cause-chain collaborator (errors.Wrap / With), which implement Causer and
no capability interface; and `custom` for arbitrary third-party errors,
whose fields give, for each capability interface, whether the error
implements it and what the method returns. -/
inductive GoError where
  | publicStatusError (message : String) (status : Int)
  | publicStatusCodeError (message : String) (status : Int) (code : String)
  | temporaryError (message : String)
  | wrapped (context : String) (inner : GoError)
  | custom (message : String) (temporaryImpl : Option Bool) (codeImpl : Option String)
      (statusCodeImpl : Option Int) (statusImpl : Option Int) (publicImpl : Option Bool)
  deriving DecidableEq

/-- Type assertion `err.(temporaryer)`: `temporaryError.Temporary()`
returns true; the other errkind variants and wrappers do not implement it. -/
def asTemporaryer : GoError → Option Bool
  | .temporaryError _ => some true
  | .custom _ t _ _ _ _ => t
  | _ => none

/-- Type assertion `err.(coder)`: `publicStatusCodeError.Code()` returns
the stored code; the other errkind variants and wrappers do not implement it. -/
def asCoder : GoError → Option String
  | .publicStatusCodeError _ _ c => some c
  | .custom _ _ c _ _ _ => c
  | _ => none

/-- Type assertion `err.(statusCoder)`: both public variants implement
`StatusCode()` returning the stored status. -/
def asStatusCoder : GoError → Option Int
  | .publicStatusError _ s => some s
  | .publicStatusCodeError _ s _ => some s
  | .custom _ _ _ sc _ _ => sc
  | _ => none

/-- Type assertion `err.(statuser)`: both public variants implement
`Status()` returning the stored status. -/
def asStatuser : GoError → Option Int
  | .publicStatusError _ s => some s
  | .publicStatusCodeError _ s _ => some s
  | .custom _ _ _ _ st _ => st
  | _ => none

/-- Type assertion `err.(publicer)`: both public variants implement
`Public()` returning true; wrapping produces a value that does not
implement publicer. -/
def asPublicer : GoError → Option Bool
  | .publicStatusError _ _ => some true
  | .publicStatusCodeError _ _ _ => some true
  | .custom _ _ _ _ _ p => p
  | _ => none

/-- Modelled from the spec: the external collaborator's cause resolution
walks the wrap chain to the innermost error. -/
def rootCause : GoError → GoError
  | .wrapped _ inner => rootCause inner
  | e => e

/-- Modelled from the spec: the external collaborator's `Cause(err)`,
returning nil only when the input is nil. -/
def Cause : Option GoError → Option GoError
  | none => none
  | some e => some (rootCause e)

/-- Modelled from the spec: the external collaborator's `Wrap(err, context)`
produces a new error whose cause is `err`; the context stands for the wrap
message and any attached key/value pairs. -/
def Wrap (e : GoError) (context : String) : GoError :=
  GoError.wrapped context e

/-- Modelled from the spec: each error's message; the collaborator formats
a wrapped error's message as context, a colon and a space, then the inner
message, with an empty context adding nothing. -/
def errorMsg : GoError → String
  | .publicStatusError m _ => m
  | .publicStatusCodeError m _ _ => m
  | .temporaryError m => m
  | .custom m _ _ _ _ _ => m
  | .wrapped ctx inner =>
      if ctx = "" then errorMsg inner else ctx ++ ": " ++ errorMsg inner

/-- errkind.HasCode: resolve the cause; false on nil; if the cause
implements coder, true iff its code equals any listed code. -/
def HasCode (err : Option GoError) (codes : List String) : Bool :=
  match Cause err with
  | none => false
  | some e =>
    match asCoder e with
    | some errCode => codes.any (fun code => errCode == code)
    | none => false

/-- errkind.HasStatus: resolve the cause; false on nil; the statusCoder
check and the statuser check are tried independently, each returning true
on a match. -/
def HasStatus (err : Option GoError) (statuses : List Int) : Bool :=
  match Cause err with
  | none => false
  | some e =>
    (match asStatusCoder e with
     | some errStatus => statuses.any (fun status => errStatus == status)
     | none => false) ||
    (match asStatuser e with
     | some errStatus => statuses.any (fun status => errStatus == status)
     | none => false)

/-- errkind.Status: resolve the cause; 0 on nil; statusCoder value if
implemented, else statuser value if implemented, else 0. -/
def Status (err : Option GoError) : Int :=
  match Cause err with
  | none => 0
  | some e =>
    match asStatusCoder e with
    | some s => s
    | none =>
      match asStatuser e with
      | some s => s
      | none => 0

/-- errkind.Code: resolve the cause; empty string on nil; the coder value
if implemented, else the empty string. -/
def Code (err : Option GoError) : String :=
  match Cause err with
  | none => ""
  | some e =>
    match asCoder e with
    | some c => c
    | none => ""

/-- errkind.IsTemporary: resolve the cause; false on nil; true iff the
cause implements temporaryer and its value is true. -/
def IsTemporary (err : Option GoError) : Bool :=
  match Cause err with
  | none => false
  | some e =>
    match asTemporaryer e with
    | some t => t
    | none => false

/-- errkind.IsPublic: test the error as given, with no cause resolution;
true iff it implements publicer and its value is true.  A nil error fails
the type assertion. -/
def IsPublic (err : Option GoError) : Bool :=
  match err with
  | none => false
  | some e =>
    match asPublicer e with
    | some p => p
    | none => false

/-- errkind.Public: builds a publicStatusError with the message and status. -/
def Public (message : String) (status : Int) : GoError :=
  GoError.publicStatusError message status

/-- errkind.PublicWithCode: trims the code; if the trimmed code is empty,
delegates to Public, otherwise builds a publicStatusCodeError storing the
trimmed code. -/
def PublicWithCode (message : String) (status : Int) (code : String) : GoError :=
  let code := trimSpace code
  if code = "" then Public message status
  else GoError.publicStatusCodeError message status code

/-- errkind.makeMessage: trim each supplied fragment, keep the non-blank
ones in order, return the default when none survives, else the survivors
joined by single spaces. -/
def makeMessage (defaultMsg : String) (msgs : List String) : String :=
  let messages := msgs.foldl
    (fun acc msg =>
      let msg := trimSpace msg
      if msg ≠ "" then acc ++ [msg] else acc) []
  if messages.length = 0 then defaultMsg else String.intercalate " " messages

/-- errkind.Temporary: builds a temporaryError and wraps it once via the
external collaborator with no context. -/
def Temporary (msg : String) : GoError :=
  Wrap (GoError.temporaryError msg) ""

/-- errkind.BadRequest: a public error with status 400 (http.StatusBadRequest). -/
def BadRequest (msg : List String) : GoError :=
  Public (makeMessage "bad request" msg) 400

/-- errkind.Forbidden: a public error with status 403 (http.StatusForbidden). -/
def Forbidden (msg : List String) : GoError :=
  Public (makeMessage "forbidden" msg) 403

/-- errkind.NotImplemented: a public error with status 501
(http.StatusNotImplemented), wrapped via the collaborator's With to attach
the caller location; the context string stands for that key/value pair. -/
def NotImplemented (msg : List String) : GoError :=
  Wrap (Public (makeMessage "not implemented" msg) 501) "caller"


/-! Helper lemmas about dropWhile-based trimming and the makeMessage loop. -/

lemma dropWhile_head_not (p : Char → Bool) (l : List Char) :
    l.dropWhile p = [] ∨ ∃ c t, l.dropWhile p = c :: t ∧ p c = false := by
  induction l with
  | nil => exact Or.inl rfl
  | cons a l ih =>
    cases h : p a with
    | true => simpa [List.dropWhile, h] using ih
    | false => exact Or.inr ⟨a, l, by simp [List.dropWhile, h], h⟩

lemma trim_twice (p : Char → Bool) (l : List Char) :
    ((((l.dropWhile p).reverse.dropWhile p).reverse.dropWhile p).reverse.dropWhile p).reverse
      = ((l.dropWhile p).reverse.dropWhile p).reverse := by
  rcases dropWhile_head_not p (l.dropWhile p).reverse with hb | ⟨c, t, hb, hc⟩
  · rw [hb]; simp
  · rcases dropWhile_head_not p l with ha | ⟨c0, t0, ha, hc0⟩
    · rw [ha] at hb; simp at hb
    · obtain ⟨u, hu⟩ := List.dropWhile_suffix (l := (l.dropWhile p).reverse) p
      have hne : (l.dropWhile p).reverse.dropWhile p ≠ [] := by
        rw [hb]; exact List.cons_ne_nil c t
      have h1 : ((l.dropWhile p).reverse.dropWhile p).getLast? = some c0 := by
        have h2 := List.getLast?_append_of_ne_nil u hne
        rw [hu] at h2
        rw [← h2, List.getLast?_reverse, ha]
        rfl
      have h4 : (((l.dropWhile p).reverse.dropWhile p).reverse).head? = some c0 := by
        rw [List.head?_reverse]; exact h1
      have hA : ((l.dropWhile p).reverse.dropWhile p).reverse.dropWhile p
          = ((l.dropWhile p).reverse.dropWhile p).reverse := by
        cases hrev : ((l.dropWhile p).reverse.dropWhile p).reverse with
        | nil => rfl
        | cons x xs =>
          rw [hrev] at h4
          have hx : x = c0 := by simpa using h4
          subst hx
          simp [List.dropWhile, hc0]
      rw [hA, List.reverse_reverse, hb]
      simp [List.dropWhile, hc]

lemma listTrim_idem (l : List Char) : listTrim (listTrim l) = listTrim l :=
  trim_twice isGoSpace l

lemma trimSpace_idem (s : String) : trimSpace (trimSpace s) = trimSpace s :=
  congrArg String.mk (listTrim_idem s.data)

lemma makeMessage_loop (msgs acc : List String) :
    List.foldl (fun acc msg =>
        let msg := trimSpace msg
        if msg ≠ "" then acc ++ [msg] else acc) acc msgs
      = acc ++ (msgs.map trimSpace).filter (fun m => !(m == "")) := by
  induction msgs generalizing acc with
  | nil => simp
  | cons a l ih =>
    rw [List.foldl_cons, ih]
    by_cases h : trimSpace a = "" <;> simp [h, List.filter_cons]

/-! The claims. -/

/-- Claim C1: IsPublic tests the error exactly as given without resolving
the cause chain: wrapping a self-reportedly public error with added context
yields a wrapped error that is not public, while IsPublic of its cause
still equals IsPublic of the original; in general IsPublic is true iff the
error itself implements publicer and its Public() returns true. -/
theorem claim_C1 :
    (∀ (e : GoError) (ctx : String), IsPublic (some e) = true →
      IsPublic (some (Wrap e ctx)) = false ∧
      IsPublic (Cause (some (Wrap e ctx))) = IsPublic (some e)) ∧
    (∀ err : Option GoError,
      IsPublic err = true ↔ ∃ e, err = some e ∧ asPublicer e = some true) := by
  constructor
  · intro e ctx h
    refine ⟨rfl, ?_⟩
    have hroot : rootCause e = e := by
      cases e with
      | wrapped ctx2 inner => simp [IsPublic, asPublicer] at h
      | publicStatusError m s => rfl
      | publicStatusCodeError m s c => rfl
      | temporaryError m => rfl
      | custom m a b c d f => rfl
    have hc : Cause (some (Wrap e ctx)) = some (rootCause e) := rfl
    rw [hc, hroot]
  · intro err
    cases err with
    | none => simp [IsPublic]
    | some e =>
      cases he : asPublicer e with
      | none => simp [IsPublic, he]
      | some b => cases b <;> simp [IsPublic, he]

/-- Witness for claim C1 at a concrete public error and context. -/
theorem claim_C1_witness :
    IsPublic (some (Public "m" 400)) = true ∧
    IsPublic (some (Wrap (Public "m" 400) "ctx")) = false ∧
    IsPublic (Cause (some (Wrap (Public "m" 400) "ctx"))) = IsPublic (some (Public "m" 400)) := by
  have h := claim_C1.1 (Public "m" 400) "ctx" rfl
  exact ⟨rfl, h.1, h.2⟩

/-- Claim C2: for every non-nil error, HasStatus is true iff the resolved
cause's statusCoder value or statuser value equals a listed target; the
checks are independent, and a cause implementing only statuser with value
402 matches HasStatus(err, 402). -/
theorem claim_C2 :
    (∀ (e : GoError) (statuses : List Int),
      HasStatus (some e) statuses = true ↔
        ((∃ s, asStatusCoder (rootCause e) = some s ∧ s ∈ statuses) ∨
         (∃ s, asStatuser (rootCause e) = some s ∧ s ∈ statuses))) ∧
    HasStatus (some (GoError.custom "m" none none none (some 402) none)) [402] = true := by
  refine ⟨?_, by decide⟩
  intro e statuses
  have h1 : HasStatus (some e) statuses =
      ((match asStatusCoder (rootCause e) with
        | some errStatus => statuses.any (fun status => errStatus == status)
        | none => false) ||
       (match asStatuser (rootCause e) with
        | some errStatus => statuses.any (fun status => errStatus == status)
        | none => false)) := rfl
  rw [h1]
  cases hsc : asStatusCoder (rootCause e) with
  | none =>
    cases hst : asStatuser (rootCause e) with
    | none => simp
    | some s2 => simp [List.any_eq_true]
  | some s1 =>
    cases hst : asStatuser (rootCause e) with
    | none => simp [List.any_eq_true]
    | some s2 => simp [List.any_eq_true]

/-- Claim C5: on nil input every cause-resolving capability query returns
its documented zero value: HasCode false, Code empty, HasStatus false,
Status 0, IsTemporary false. -/
theorem claim_C5 (codes : List String) (statuses : List Int) :
    HasCode none codes = false ∧ Code none = "" ∧
    HasStatus none statuses = false ∧ Status none = 0 ∧ IsTemporary none = false :=
  ⟨rfl, rfl, rfl, rfl, rfl⟩

/-- Claim C6: IsTemporary(Temporary(x)) is true, Temporary(x).Error() is x,
and wrapping with added context keeps IsTemporary true because the query
resolves to the cause. -/
theorem claim_C6 (x ctx : String) :
    IsTemporary (some (Temporary x)) = true ∧
    errorMsg (Temporary x) = x ∧
    IsTemporary (some (Wrap (Temporary x) ctx)) = true := by
  refine ⟨rfl, ?_, rfl⟩
  simp [Temporary, Wrap, errorMsg]

/-- Claim C8: BadRequest, Forbidden and NotImplemented build public errors
with fixed statuses 400, 403 and 501; NotImplemented wraps its public error
to attach the caller location, so its status is reached through cause
resolution. -/
theorem claim_C8 (msgs : List String) :
    Status (some (BadRequest msgs)) = 400 ∧ IsPublic (some (BadRequest msgs)) = true ∧
    Status (some (Forbidden msgs)) = 403 ∧ IsPublic (some (Forbidden msgs)) = true ∧
    Status (some (NotImplemented msgs)) = 501 ∧
    (∃ ctx, NotImplemented msgs = Wrap (Public (makeMessage "not implemented" msgs) 501) ctx) :=
  ⟨rfl, rfl, rfl, rfl, rfl, ⟨"caller", rfl⟩⟩

/-- Claim C10: IsPublic applied to a nil error returns false: the publicer
type assertion fails and the query neither unwraps nor fails. -/
theorem claim_C10 : IsPublic none = false := rfl

/-- Counterexample to claim C3 as stated: the code " X " is non-blank, yet
Code(PublicWithCode("m", 400, " X ")) is "X", not " X ", because the
variant stores the trimmed code. -/
theorem claim_C3_counterexample :
    trimSpace " X " ≠ "" ∧ Code (some (PublicWithCode "m" 400 " X ")) ≠ " X " := by
  exact ⟨by decide, by decide⟩

/-- Claim C3 (amended): for every status, message and code whose trimmed
form is non-blank, Status(PublicWithCode(message, status, code)) is the
status, Code(...) is the trimmed code (hence the code itself whenever it
carries no surrounding whitespace), and IsPublic(...) is true. -/
theorem claim_C3 (m : String) (s : Int) (c : String) (h : trimSpace c ≠ "") :
    Status (some (PublicWithCode m s c)) = s ∧
    Code (some (PublicWithCode m s c)) = trimSpace c ∧
    IsPublic (some (PublicWithCode m s c)) = true := by
  have hpc : PublicWithCode m s c = GoError.publicStatusCodeError m s (trimSpace c) := by
    simp [PublicWithCode, h]
  rw [hpc]
  exact ⟨rfl, rfl, rfl⟩

/-- Witness for claim C3 at a concrete message, status and code. -/
theorem claim_C3_witness :
    trimSpace "X" ≠ "" ∧
    (Status (some (PublicWithCode "m" 400 "X")) = 400 ∧
     Code (some (PublicWithCode "m" 400 "X")) = trimSpace "X" ∧
     IsPublic (some (PublicWithCode "m" 400 "X")) = true) :=
  ⟨by decide, claim_C3 "m" 400 "X" (by decide)⟩

/-- Claim C4: PublicWithCode with an empty or whitespace-only code returns
the very value Public returns: no coder capability, empty Code, public,
same status. -/
theorem claim_C4 (m : String) (s : Int) (c : String) (h : trimSpace c = "") :
    PublicWithCode m s c = Public m s ∧
    Code (some (PublicWithCode m s c)) = "" ∧
    asCoder (PublicWithCode m s c) = none ∧
    IsPublic (some (PublicWithCode m s c)) = true ∧
    Status (some (PublicWithCode m s c)) = Status (some (Public m s)) := by
  have hpc : PublicWithCode m s c = Public m s := by
    simp [PublicWithCode, h]
  rw [hpc]
  exact ⟨rfl, rfl, rfl, rfl, rfl⟩

/-- Witness for claim C4 at a whitespace-only code. -/
theorem claim_C4_witness :
    trimSpace "  " = "" ∧
    (PublicWithCode "m" 400 "  " = Public "m" 400 ∧
     Code (some (PublicWithCode "m" 400 "  ")) = "" ∧
     asCoder (PublicWithCode "m" 400 "  ") = none ∧
     IsPublic (some (PublicWithCode "m" 400 "  ")) = true ∧
     Status (some (PublicWithCode "m" 400 "  ")) = Status (some (Public "m" 400))) :=
  ⟨by decide, claim_C4 "m" 400 "  " (by decide)⟩

/-- Claim C7: makeMessage trims each fragment, discards the blank ones,
joins the survivors with a single space, and returns the default exactly
when no fragment survives; with default "bad request" and fragments
["", "  ", "custom"] it returns "custom", and with all-blank fragments it
returns the default. -/
theorem claim_C7 (d : String) (msgs : List String) :
    makeMessage d msgs =
      (if ((msgs.map trimSpace).filter (fun m => !(m == ""))) = [] then d
       else String.intercalate " " ((msgs.map trimSpace).filter (fun m => !(m == "")))) ∧
    makeMessage "bad request" ["", "  ", "custom"] = "custom" ∧
    makeMessage "bad request" ["", "   "] = "bad request" := by
  refine ⟨?_, by decide, by decide⟩
  have h0 : makeMessage d msgs =
      (if (List.foldl (fun acc msg =>
            let msg := trimSpace msg
            if msg ≠ "" then acc ++ [msg] else acc) [] msgs).length = 0 then d
       else String.intercalate " "
         (List.foldl (fun acc msg =>
            let msg := trimSpace msg
            if msg ≠ "" then acc ++ [msg] else acc) [] msgs)) := rfl
  rw [h0, makeMessage_loop]
  simp [List.length_eq_zero]

/-- Claim C9: for every code whose trimmed form is non-empty, the variant
built by PublicWithCode reports the trimmed code, which never carries
surrounding whitespace and so may differ from the caller-supplied string. -/
theorem claim_C9 (m : String) (s : Int) (c : String) (h : trimSpace c ≠ "") :
    Code (some (PublicWithCode m s c)) = trimSpace c ∧
    trimSpace (Code (some (PublicWithCode m s c))) = Code (some (PublicWithCode m s c)) := by
  have hpc : PublicWithCode m s c = GoError.publicStatusCodeError m s (trimSpace c) := by
    simp [PublicWithCode, h]
  rw [hpc]
  refine ⟨rfl, ?_⟩
  show trimSpace (trimSpace c) = trimSpace c
  exact trimSpace_idem c

/-- Witness for claim C9 at a code with surrounding whitespace. -/
theorem claim_C9_witness :
    trimSpace " Y " ≠ "" ∧
    (Code (some (PublicWithCode "m" 400 " Y ")) = trimSpace " Y " ∧
     trimSpace (Code (some (PublicWithCode "m" 400 " Y "))) =
       Code (some (PublicWithCode "m" 400 " Y "))) :=
  ⟨by decide, claim_C9 "m" 400 " Y " (by decide)⟩

end Errkind
